import Mathlib

/-!
Verification development for the food-delivery backend (`src/server.js`,
first snapshot, lines 1–2208).  The JavaScript order pipeline is shallowly
embedded: JSON/JS values are modelled by `JsValue`, JS numbers by `ℚ` with
`Option ℚ` where `NaN` can arise, and each HTTP handler becomes a pure
function from its request data and an explicit environment (database
availability, database-assigned ids, clock, Telegram configuration and
outcome) to a response record that also logs the observable side effects
(queries issued, notification dispatched).
-/

namespace FoodApi

/-- A JSON/JS value as the order endpoints see it.  A string carries, next to
its text, the results of the JS numeric conversions the server applies to it:
`pf` is `parseFloat(text)`, `pi` is `parseInt(text)`, `tn` is `Number(text)`
(the implicit coercion used by `*`), and `pfc` is
`parseFloat(text.replace(',', '.'))` as used by the admin dish endpoints.
`none` stands for `NaN`.  Re-implementing the JS numeric grammar is out of
scope, so concrete string values must be instantiated with the true
conversion results of their text. -/
inductive JsValue where
  | undef : JsValue
  | num (q : ℚ) : JsValue
  | str (text : String) (pf : Option ℚ) (pi : Option Int) (tn : Option ℚ)
      (pfc : Option ℚ) : JsValue
deriving DecidableEq

/-- Shorthand for a string that contains no number at all, such as the
server's Russian fallback labels: every numeric conversion yields `NaN`
(for the empty string `Number("")` would be `0`, so this must only be used
for non-empty non-numeric text). -/
def mkStr (s : String) : JsValue := .str s none none none none

/-- Shorthand for a plain decimal numeric string such as `"10.5"`: all four
conversions succeed, `parseInt` truncating to `i`. -/
def numStr (s : String) (q : ℚ) (i : Int) : JsValue := .str s (some q) (some i) (some q) (some q)

/-- Truncation toward zero, which is how JS `parseInt` rounds a number
argument (via its decimal string form, for the magnitudes used here). -/
def jsTruncQ (q : ℚ) : Int := Int.tdiv q.num (q.den : Int)

/-- JS `parseFloat(v)` for the values that reach the pricing code:
`undefined` parses to `NaN` (`none`), a number parses to itself, a string to
its carried `parseFloat` result. -/
def parseFloatV : JsValue → Option ℚ
  | .undef => none
  | .num q => some q
  | .str _ pf _ _ _ => pf

/-- JS `parseInt(v)`: `undefined` gives `NaN`, a number is truncated toward
zero, a string gives its carried `parseInt` result. -/
def parseIntV : JsValue → Option Int
  | .undef => none
  | .num q => some (jsTruncQ q)
  | .str _ _ pi _ _ => pi

/-- JS `Number(v)` as used by arithmetic coercion: `undefined` is `NaN`, a
number is itself, a string gives its carried coercion result. -/
def toNumberV : JsValue → Option ℚ
  | .undef => none
  | .num q => some q
  | .str _ _ _ tn _ => tn

/-- JS truthiness of the modelled values: `undefined` is falsy, a number is
truthy iff non-zero, a string is truthy iff non-empty. -/
def truthy : JsValue → Bool
  | .undef => false
  | .num q => decide (q ≠ 0)
  | .str s _ _ _ _ => decide (s ≠ "")

/-- JS `a || b` on modelled values: `a` if truthy, else `b`. -/
def jsOr (a b : JsValue) : JsValue := if truthy a then a else b

/-- JS `x || y` where `x` is the result of a numeric parse (`none` = `NaN`,
which is falsy, as is `0`) and `y` a number. -/
def numOr (a : Option ℚ) (b : ℚ) : ℚ :=
  match a with
  | none => b
  | some q => if q = 0 then b else q

/-- JS `x || y` for an integer parse result; `NaN` and `0` are falsy. -/
def intOr (a : Option Int) (b : Int) : Int :=
  match a with
  | none => b
  | some i => if i = 0 then b else i

/-- JS `x || y` where both sides are numbers-or-`NaN`. -/
def numOrOpt (a b : Option ℚ) : Option ℚ :=
  match a with
  | none => b
  | some q => if q = 0 then b else some q

/-- NaN-propagating JS addition. -/
def jsAdd (a b : Option ℚ) : Option ℚ :=
  match a, b with
  | some x, some y => some (x + y)
  | _, _ => none

/-- NaN-propagating JS multiplication. -/
def jsMul (a b : Option ℚ) : Option ℚ :=
  match a, b with
  | some x, some y => some (x * y)
  | _, _ => none

/-- A raw line item from the request body of `POST /orders`: an untyped bag
of the fields the server reads (`server.js` reads `dish_price`, `price`,
`dishPrice`, `quantity`, `dish_id`, `dish_name`, `name`, `dish_image`,
`imageUrl`).  Absent fields are `JsValue.undef`. -/
structure RawItem where
  dish_id : JsValue := .undef
  dish_name : JsValue := .undef
  name : JsValue := .undef
  dish_price : JsValue := .undef
  price : JsValue := .undef
  dishPrice : JsValue := .undef
  quantity : JsValue := .undef
  dish_image : JsValue := .undef
  imageUrl : JsValue := .undef
deriving DecidableEq

/-- Unit-price resolution of the persistence path (`server.js` 1412–1415):
`parseFloat(item.dish_price) || parseFloat(item.price) ||
parseFloat(item.dishPrice) || 0`. -/
def resolvedPrice3 (it : RawItem) : ℚ :=
  numOr (parseFloatV it.dish_price)
    (numOr (parseFloatV it.price)
      (numOr (parseFloatV it.dishPrice) 0))

/-- Unit-price resolution of the notification paths (`server.js` 46, 69,
1504, 1521, 1562): `parseFloat(item.dish_price) || parseFloat(item.price) ||
0` — note the missing `dishPrice` alias. -/
def resolvedPrice2 (it : RawItem) : ℚ :=
  numOr (parseFloatV it.dish_price)
    (numOr (parseFloatV it.price) 0)

/-- Quantity resolution used at `server.js` 47, 70, 1417 and 1505:
`parseInt(item.quantity) || 1`. -/
def resolvedQty (it : RawItem) : Int :=
  intOr (parseIntV it.quantity) 1

/-- A persisted order line as built by the pricing loop (`server.js`
1423–1429) and as replayed by the composite re-read. -/
structure OrderItem where
  dish_id : JsValue
  dish_name : JsValue
  dish_price : ℚ
  quantity : Int
  dish_image : JsValue
deriving DecidableEq

/-- Normalisation of one raw item in the pricing loop (`server.js`
1423–1429). -/
def normItem (it : RawItem) : OrderItem :=
  { dish_id := it.dish_id
    dish_name := jsOr it.dish_name (jsOr it.name (mkStr "Блюдо"))
    dish_price := resolvedPrice3 it
    quantity := resolvedQty it
    dish_image := jsOr it.dish_image (jsOr it.imageUrl (.str "" none none (some 0) none)) }

/-- The pricing loop of `POST /orders` in database mode (`server.js`
1398–1430): accumulates `totalAmount` and the normalised `orderItems`. -/
def pricingLoop (items : List RawItem) : ℚ × List OrderItem :=
  items.foldl
    (fun acc it =>
      (acc.1 + resolvedPrice3 it * (resolvedQty it : ℚ), acc.2 ++ [normItem it]))
    (0, [])

/-- The recomputation done for the notification payload (`server.js`
1500–1508): `notificationTotal` and `notificationItemCount` summed with the
two-alias price and `parseInt(quantity) || 1`. -/
def notificationRecompute (items : List RawItem) : ℚ × Int :=
  items.foldl
    (fun acc it =>
      (acc.1 + resolvedPrice2 it * (resolvedQty it : ℚ), acc.2 + resolvedQty it))
    (0, 0)

/-- The empty JS string: falsy; `parseFloat("")` and `parseInt("")` are
`NaN`, but `Number("")` is `0`. -/
def emptyStr : JsValue := .str "" none none (some 0) none

/-- One entry of the `items` array handed to the Telegram dispatcher.  The
dispatcher reads `dish_price`, `price`, `quantity` and `dishName`; the mock
payload additionally carries a `totalPrice` it never reads. -/
structure NotifItem where
  dishName : JsValue
  quantity : JsValue
  dish_price : JsValue := .undef
  price : JsValue := .undef
  totalPrice : Option ℚ := none
deriving DecidableEq

/-- The `orderDetails` object handed to `sendTelegramNotification`
(`server.js` 1510–1524 in database mode, 1577–1590 in mock mode). -/
structure NotificationData where
  id : String
  customerName : JsValue
  customerPhone : JsValue
  deliveryAddress : JsValue
  restaurantName : JsValue
  totalAmount : Option ℚ
  itemCount : Option ℚ
  items : List NotifItem
deriving DecidableEq

/-- Price resolution inside the dispatcher (`server.js` 46 and 69):
`parseFloat(item.dish_price) || parseFloat(item.price) || 0`. -/
def sendPrice (it : NotifItem) : ℚ :=
  numOr (parseFloatV it.dish_price) (numOr (parseFloatV it.price) 0)

/-- Quantity resolution inside the dispatcher (`server.js` 47 and 70):
`parseInt(item.quantity) || 1`. -/
def sendQty (it : NotifItem) : Int :=
  intOr (parseIntV it.quantity) 1

/-- The totals printed into the Telegram message. -/
structure MessageInfo where
  total : ℚ
  itemCount : ℚ
  delivered : Bool
deriving DecidableEq

/-- Shallow embedding of `sendTelegramNotification` (`server.js` 33–93).
Without a bot token it returns early (`none`).  Otherwise it recomputes
`totalAmount`/`itemCount` from `items` (lines 41–51), prefers the caller's
values via `||` (lines 54–55), and sends the message; `sendOk` abstracts the
outcome of the `axios` call, whose failure is caught inside the function
(lines 88–92), so the function never throws.  Only the totals of the
message text are modelled, not its prose. -/
def sendTelegramNotification (botToken : Option String) (sendOk : Bool)
    (d : NotificationData) : Option MessageInfo :=
  match botToken with
  | none => none
  | some _ =>
      let computed := d.items.foldl
        (fun acc it => (acc.1 + sendPrice it * (sendQty it : ℚ), acc.2 + (sendQty it : ℚ)))
        (0, 0)
      some
        { total := numOr d.totalAmount computed.1
          itemCount := numOr d.itemCount computed.2
          delivered := sendOk }

/-- Environment of one `POST /orders` request: the server's availability
flag and pool, whether the first SQL query of this request throws, the id
and `order_date` the database assigns on success, the clock (`Date.now()`
and `toISOString`), and the Telegram configuration and send outcome. -/
structure ServerEnv where
  dbConnected : Bool
  poolReady : Bool
  dbFails : Bool
  dbOrderId : Nat
  dbOrderDate : String
  nowMs : Nat
  nowIso : String
  botToken : Option String
  sendOk : Bool
deriving DecidableEq

/-- The request data of `POST /orders` after body destructuring
(`server.js` 1365–1383).  `userId` is the result of `getUserIdFromToken`;
`items` is `some l` when the body carries an array and `none` when the
field is absent (a falsy value in JS). -/
structure OrderRequest where
  userId : Option Nat
  restaurant_id : JsValue := .undef
  items : Option (List RawItem) := none
  delivery_address : JsValue := .undef
  payment_method : JsValue := .undef
  restaurant_name : JsValue := .undef
  restaurant_image : JsValue := .undef
  customer_name : JsValue := .undef
  customer_phone : JsValue := .undef
deriving DecidableEq

/-- One line item of the JSON response of `POST /orders`. -/
structure RespItem where
  dish_id : JsValue
  dish_name : JsValue
  dish_price : Option ℚ
  quantity : JsValue
  dish_image : JsValue
deriving DecidableEq

/-- The `order` object of the JSON response of `POST /orders`
(`server.js` 1535–1545 in database mode, 1557–1573 in mock mode). -/
structure RespOrder where
  id : String
  restaurant_name : JsValue
  restaurant_image : JsValue
  order_date : String
  total_amount : Option ℚ
  status : String
  delivery_address : JsValue
  payment_method : JsValue
  items : List RespItem
deriving DecidableEq

/-- Result of one `POST /orders` request: the HTTP response
(`httpStatus`, `success`, `error`, `message`, `order`) plus the observable
side effects — `dbWrites` counts executed `INSERT` statements,
`persistedTotal` is the `total_amount` written to the order header (`none`
when nothing was persisted), `notified` records whether
`sendTelegramNotification` was invoked, and `notification` its result. -/
structure CreateResult where
  httpStatus : Nat
  success : Bool
  error : Option String := none
  message : Option String := none
  order : Option RespOrder := none
  dbWrites : Nat := 0
  persistedTotal : Option ℚ := none
  notified : Bool := false
  notification : Option (Option MessageInfo) := none
deriving DecidableEq

/-- A persisted line item as echoed by the composite re-read
(`server.js` 1474–1495): for a freshly created order the join returns
exactly the rows inserted at 1457–1471. -/
def respOfOrderItem (it : OrderItem) : RespItem :=
  { dish_id := it.dish_id
    dish_name := it.dish_name
    dish_price := some it.dish_price
    quantity := .num (it.quantity : ℚ)
    dish_image := it.dish_image }

/-- A mock-mode response line item (`server.js` 1566–1572). -/
def mockRespItem (it : RawItem) : RespItem :=
  { dish_id := it.dish_id
    dish_name := jsOr it.dish_name (jsOr it.name (mkStr ("Блюдо")))
    dish_price := some (resolvedPrice2 it)
    quantity := jsOr it.quantity (.num 1)
    dish_image := jsOr it.dish_image it.imageUrl }

/-- The mock-mode total (`server.js` 1562): a `reduce` adding
`(parseFloat(dish_price) || parseFloat(price) || 0) * (quantity || 1)`;
the raw quantity is coerced by JS `*`, so `NaN` can arise and propagate. -/
def mockTotal (items : List RawItem) : Option ℚ :=
  items.foldl
    (fun sum it =>
      jsAdd sum (jsMul (some (resolvedPrice2 it)) (toNumberV (jsOr it.quantity (.num 1)))))
    (some 0)

/-- The notification payload built in database mode (`server.js`
1510–1524). -/
def dbNotificationData (env : ServerEnv) (req : OrderRequest)
    (items : List RawItem) : NotificationData :=
  { id := Nat.repr env.dbOrderId
    customerName := jsOr req.customer_name (mkStr ("Клиент"))
    customerPhone := jsOr req.customer_phone (mkStr ("Не указан"))
    deliveryAddress := req.delivery_address
    restaurantName := jsOr req.restaurant_name (mkStr ("Ресторан"))
    totalAmount := some (notificationRecompute items).1
    itemCount := some ((notificationRecompute items).2 : ℚ)
    items := items.map fun it =>
      { dishName := jsOr it.dish_name (jsOr it.name (mkStr ("Блюдо")))
        quantity := jsOr it.quantity (.num 1)
        dish_price := .num (resolvedPrice2 it)
        price := .num (resolvedPrice2 it) } }

/-- The notification payload built in mock mode (`server.js` 1577–1590). -/
def mockNotificationData (env : ServerEnv) (req : OrderRequest)
    (items : List RawItem) : NotificationData :=
  { id := Nat.repr env.nowMs
    customerName := jsOr req.customer_name (mkStr ("Клиент"))
    customerPhone := jsOr req.customer_phone (mkStr ("Не указан"))
    deliveryAddress := req.delivery_address
    restaurantName := jsOr req.restaurant_name (mkStr ("Наетый кабан"))
    totalAmount := mockTotal items
    itemCount := some (items.length : ℚ)
    items := items.map fun it =>
      { dishName := jsOr it.dish_name (jsOr it.name (mkStr ("Блюдо")))
        quantity := jsOr it.quantity (.num 1)
        totalPrice := jsMul (some (resolvedPrice2 it)) (toNumberV (jsOr it.quantity (.num 1))) } }

/-- The happy-path database-mode outcome of `POST /orders` (`server.js`
1397–1546): pricing loop, header insert, item inserts, composite re-read
(modelled as returning the freshly inserted rows), notification, response. -/
def dbResult (env : ServerEnv) (req : OrderRequest) (items : List RawItem) :
    CreateResult :=
  let priced := pricingLoop items
  let sres := sendTelegramNotification env.botToken env.sendOk
    (dbNotificationData env req items)
  { httpStatus := 200, success := true
    message := some ("Заказ успешно создан")
    order := some
      { id := Nat.repr env.dbOrderId
        restaurant_name := jsOr req.restaurant_name (mkStr ("Ресторан"))
        restaurant_image := jsOr req.restaurant_image emptyStr
        order_date := env.dbOrderDate
        total_amount := some priced.1
        status := "pending"
        delivery_address := req.delivery_address
        payment_method := jsOr req.payment_method (mkStr ("Картой онлайн"))
        items := priced.2.map respOfOrderItem }
    dbWrites := 1 + items.length
    persistedTotal := some priced.1
    notified := true
    notification := some sres }

/-- The mock-mode outcome of `POST /orders` (`server.js` 1556–1601):
synthesized order, notification, success response, no persistence. -/
def mockResult (env : ServerEnv) (req : OrderRequest) (items : List RawItem) :
    CreateResult :=
  let mockOrder : RespOrder :=
    { id := Nat.repr env.nowMs
      restaurant_name := jsOr req.restaurant_name (mkStr ("Наетый кабан"))
      restaurant_image := jsOr req.restaurant_image
        (mkStr ("https://images.unsplash.com/photo-1517248135467-4c7edcad34c4?w=400"))
      order_date := env.nowIso
      total_amount := mockTotal items
      status := "pending"
      delivery_address := req.delivery_address
      payment_method := jsOr req.payment_method (mkStr ("Картой онлайн"))
      items := items.map mockRespItem }
  let sres := sendTelegramNotification env.botToken env.sendOk
    (mockNotificationData env req items)
  { httpStatus := 200, success := true
    message := some ("Заказ создан (тестовый режим)")
    order := some mockOrder
    dbWrites := 0
    persistedTotal := none
    notified := true
    notification := some sres }

/-- Shallow embedding of the `POST /orders` handler (`server.js`
1363–1611).  Auth gate (1365–1372), field validation (1388–1393), then the
database branch (1395–1554) or the mock branch (1556–1601).  `env.dbFails`
models the first `pool.query` of the request throwing, which the `catch` at
1548–1554 converts to a 500. -/
def createOrder (env : ServerEnv) (req : OrderRequest) : CreateResult :=
  match req.userId with
  | none =>
      { httpStatus := 401, success := false, error := some ("Требуется авторизация") }
  | some _ =>
      if !truthy req.restaurant_id || req.items.isNone || !truthy req.delivery_address then
        { httpStatus := 400, success := false
          error := some ("Заполните обязательные поля: restaurant_id, items, delivery_address") }
      else
        let items := req.items.getD []
        if env.dbConnected && env.poolReady then
          if env.dbFails then
            { httpStatus := 500, success := false
              error := some ("Ошибка сервера при создании заказа") }
          else
            dbResult env req items
        else
          mockResult env req items

/-- The total printed in the dispatched Telegram message, when one was
built. -/
def CreateResult.messageTotal (r : CreateResult) : Option ℚ :=
  match r.notification with
  | some (some mi) => some mi.total
  | _ => none

/-- The caller-visible part of the result: HTTP status and JSON body. -/
def CreateResult.httpView (r : CreateResult) :
    Nat × Bool × Option String × Option String × Option RespOrder :=
  (r.httpStatus, r.success, r.error, r.message, r.order)

/-- The fixed status set of both status-update endpoints (`server.js` 1050
and 2174). -/
def validStatuses : List String :=
  ["pending", "preparing", "delivering", "delivered", "cancelled"]

/-- JS `validStatuses.includes(status)`: strict equality, so only a string
can match. -/
def statusAllowed : JsValue → Bool
  | .str s _ _ _ _ => validStatuses.contains s
  | _ => false

/-- The status text of a body value, used after `statusAllowed` passed. -/
def statusText : JsValue → String
  | .str s _ _ _ _ => s
  | _ => ""

/-- The bot endpoints' admin-key gate (`server.js` 1037–1043):
`!apiKey || apiKey !== ADMIN_API_KEY` — the header may be absent (`none`)
or the empty string, both falsy. -/
def apiKeyRejected (apiKey : Option String) (adminKey : String) : Bool :=
  match apiKey with
  | none => true
  | some k => decide (k = "") || decide (k ≠ adminKey)

/-- The admin endpoints' key gate `validateAdminApiKey` (`server.js`
402–405): strict equality only. -/
def validateAdminApiKey (apiKey : Option String) (adminKey : String) : Bool :=
  decide (apiKey = some adminKey)

/-- Environment of one status-update request: configured admin key,
store availability, whether the `UPDATE` throws, whether it matched a row,
the matched order's owner, the owner's Telegram chat lookup, and the
outcome of the customer notification. -/
structure StatusUpdateEnv where
  adminKey : String
  dbConnected : Bool
  poolReady : Bool
  updateFails : Bool
  rowFound : Bool
  rowUserId : Option Nat
  chatLookupFails : Bool
  chatId : Option String
  sendOk : Bool
deriving DecidableEq

/-- Result of a status-update or admin dish request: HTTP response plus the
number of executed write statements (`UPDATE`/`INSERT`) and whether a
customer notification was attempted. -/
structure MutationResult where
  httpStatus : Nat
  success : Bool
  error : Option String := none
  message : Option String := none
  writes : Nat := 0
  userNotified : Bool := false
deriving DecidableEq

/-- Shallow embedding of `PUT /bot/orders/:id/status` (`server.js`
1034–1152): key gate, membership check against `validStatuses`, then in
database mode the `UPDATE ... RETURNING *`, a best-effort customer
notification whose errors are swallowed (1109–1111), and a success
response; in mock mode a cosmetic success without any write. -/
def botUpdateStatus (env : StatusUpdateEnv) (apiKey : Option String)
    (status : JsValue) : MutationResult :=
  if apiKeyRejected apiKey env.adminKey then
    { httpStatus := 401, success := false, error := some ("Неверный API ключ") }
  else if !statusAllowed status then
    { httpStatus := 400, success := false
      error := some ("Неверный статус. Допустимые значения: pending, preparing, delivering, delivered, cancelled") }
  else if env.dbConnected && env.poolReady then
    if env.updateFails then
      { httpStatus := 500, success := false, error := some ("Ошибка базы данных") }
    else if !env.rowFound then
      { httpStatus := 404, success := false, error := some ("Заказ не найден"), writes := 1 }
    else
      { httpStatus := 200, success := true
        message := some ("Статус заказа обновлен на \"" ++ statusText status ++ "\"")
        writes := 1
        userNotified := env.rowUserId.isSome && !env.chatLookupFails && env.chatId.isSome }
  else
    { httpStatus := 200, success := true
      message := some ("Статус заказа обновлен на \"" ++ statusText status ++ "\" (тестовый режим)") }

/-- Shallow embedding of `PUT /admin/orders/:id/status` (`server.js`
2162–2208): key gate, membership check, then `pool.query` with **no**
availability check — with no pool the call throws and the catch-all
returns 500. -/
def adminUpdateStatus (env : StatusUpdateEnv) (apiKey : Option String)
    (status : JsValue) : MutationResult :=
  if !validateAdminApiKey apiKey env.adminKey then
    { httpStatus := 401, success := false, error := some ("Неверный API ключ") }
  else if !statusAllowed status then
    { httpStatus := 400, success := false
      error := some ("Неверный статус. Допустимые значения: pending, preparing, delivering, delivered, cancelled") }
  else if !env.poolReady || env.updateFails then
    { httpStatus := 500, success := false, error := some ("Ошибка сервера") }
  else if !env.rowFound then
    { httpStatus := 404, success := false, error := some ("Заказ не найден"), writes := 1 }
  else
    { httpStatus := 200, success := true
      message := some ("Статус заказа обновлен на \"" ++ statusText status ++ "\"")
      writes := 1 }

/-- The update bag of `PUT /admin/dishes/:id` (`server.js` 1624–1696):
`none` marks an absent field; `extraKeys` counts body keys the handler does
not recognise (they still count for `Object.keys(updates).length`). -/
structure DishUpdates where
  name : Option JsValue := none
  description : Option JsValue := none
  image_url : Option JsValue := none
  price : Option JsValue := none
  preparation_time : Option JsValue := none
  is_spicy : Option JsValue := none
  is_vegetarian : Option JsValue := none
  is_available : Option JsValue := none
  extraKeys : Nat := 0
deriving DecidableEq

/-- Number of keys of the update bag (`Object.keys(updates).length`). -/
def DishUpdates.keyCount (u : DishUpdates) : Nat :=
  u.name.toList.length + u.description.toList.length + u.image_url.toList.length +
    u.price.toList.length + u.preparation_time.toList.length + u.is_spicy.toList.length +
    u.is_vegetarian.toList.length + u.is_available.toList.length + u.extraKeys

/-- Number of recognised fields, i.e. the length `updateFields` would have
if the price field parses (`server.js` 1642–1696). -/
def DishUpdates.fieldCount (u : DishUpdates) : Nat :=
  u.name.toList.length + u.description.toList.length + u.image_url.toList.length +
    u.price.toList.length + u.preparation_time.toList.length + u.is_spicy.toList.length +
    u.is_vegetarian.toList.length + u.is_available.toList.length

/-- The dish-price parse of the admin endpoints (`server.js` 1663–1665 and
2105–2107): strings get `parseFloat` after a comma-to-dot replacement,
other values plain `parseFloat`. -/
def dishPriceParse : JsValue → Option ℚ
  | .str _ _ _ _ pfc => pfc
  | v => parseFloatV v

/-- Validity of a supplied dish price: `isNaN(parsedPrice) || parsedPrice
<= 0` rejects. -/
def dishPriceOk (v : JsValue) : Bool :=
  match dishPriceParse v with
  | none => false
  | some q => decide (0 < q)

/-- Environment of an admin dish mutation. -/
structure DishEnv where
  adminKey : String
  dbConnected : Bool
  poolReady : Bool
  queryFails : Bool
  rowFound : Bool
deriving DecidableEq

/-- Shallow embedding of `PUT /admin/dishes/:id` (`server.js` 1614–1737):
key gate, non-empty-body check, **503 when the store is unavailable**
(1634–1639), per-field collection with price validation, then the
`UPDATE`. -/
def adminUpdateDish (env : DishEnv) (apiKey : Option String)
    (updates : Option DishUpdates) : MutationResult :=
  if !validateAdminApiKey apiKey env.adminKey then
    { httpStatus := 401, success := false, error := some ("Неверный API ключ") }
  else
    match updates with
    | none =>
        { httpStatus := 400, success := false, error := some ("Нет данных для обновления") }
    | some u =>
        if u.keyCount = 0 then
          { httpStatus := 400, success := false, error := some ("Нет данных для обновления") }
        else if !env.dbConnected || !env.poolReady then
          { httpStatus := 503, success := false, error := some ("База данных недоступна") }
        else if (match u.price with | some v => !dishPriceOk v | none => false) then
          { httpStatus := 400, success := false
            error := some ("Цена должна быть положительным числом") }
        else if u.fieldCount = 0 then
          { httpStatus := 400, success := false
            error := some ("Нет валидных полей для обновления") }
        else if env.queryFails then
          { httpStatus := 500, success := false
            error := some ("Ошибка сервера при обновлении блюда") }
        else if !env.rowFound then
          { httpStatus := 404, success := false, error := some ("Блюдо не найдено"), writes := 1 }
        else
          { httpStatus := 200, success := true
            message := some ("Блюдо успешно обновлено"), writes := 1 }

/-- Shallow embedding of `POST /admin/dishes` (`server.js` 2067–2158):
key gate, required-field check, **503 when the store is unavailable**
(2096–2102), price validation, then the `INSERT`. -/
def adminCreateDish (env : DishEnv) (apiKey : Option String)
    (restaurant_id name priceFromBody : JsValue) : MutationResult :=
  if !validateAdminApiKey apiKey env.adminKey then
    { httpStatus := 401, success := false, error := some ("Неверный API ключ") }
  else if !truthy restaurant_id || !truthy name || !truthy priceFromBody then
    { httpStatus := 400, success := false
      error := some ("Заполните обязательные поля: restaurant_id, name, price") }
  else if !env.dbConnected || !env.poolReady then
    { httpStatus := 503, success := false, error := some ("База данных недоступна") }
  else if !dishPriceOk priceFromBody then
    { httpStatus := 400, success := false
      error := some ("Цена должна быть положительным числом") }
  else if env.queryFails then
    { httpStatus := 500, success := false, error := some ("Ошибка сервера") }
  else
    { httpStatus := 200, success := true
      message := some ("Блюдо успешно создано"), writes := 1 }

/-- Shallow embedding of `getUserIdFromToken` (`server.js` 380–400):
header must be present and start with `Bearer `, the token is the second
space-separated part and must be non-empty, and `verify` abstracts
`jwt.verify` (`none` when it throws or yields no id). -/
def getUserIdFromToken (authHeader : Option String)
    (verify : String → Option Nat) : Option Nat :=
  match authHeader with
  | none => none
  | some h =>
      if !h.startsWith ("Bearer ") then none
      else
        match (h.splitOn (" ")).get? 1 with
        | none => none
        | some t => if t = "" then none else verify t

/-- Result of `GET /users/me/orders`: the 401 body has no `success` field;
`dbQueries` counts SQL statements issued; `ordersCount` is the length of
the returned `orders` array (the row-to-JSON projection at 843–853 carries
no information any claim needs). -/
structure UserOrdersResult where
  httpStatus : Nat
  success : Option Bool := none
  error : Option String := none
  ordersCount : Option Nat := none
  dbQueries : Nat := 0
deriving DecidableEq

/-- Shallow embedding of `GET /users/me/orders` (`server.js` 804–910):
auth gate first (804–812), then in database mode one aggregate query whose
failure degrades to an empty success list (857–863); in mock mode user 1
receives the single hard-coded order (864–897) and everyone else an empty
list (898–900). -/
def getUserOrders (userId : Option Nat) (dbConnected poolReady : Bool)
    (queryFails : Bool) (rowCount : Nat) : UserOrdersResult :=
  match userId with
  | none =>
      { httpStatus := 401, error := some ("Требуется авторизация"), dbQueries := 0 }
  | some uid =>
      if dbConnected && poolReady then
        if queryFails then
          { httpStatus := 200, success := some true, ordersCount := some 0, dbQueries := 1 }
        else
          { httpStatus := 200, success := some true, ordersCount := some rowCount, dbQueries := 1 }
      else
        if uid = 1 then
          { httpStatus := 200, success := some true, ordersCount := some 1, dbQueries := 0 }
        else
          { httpStatus := 200, success := some true, ordersCount := some 0, dbQueries := 0 }

/-- Concrete fixture: the spec's first example item, `{price: "10.5",
quantity: 2}`. -/
def exItem1 : RawItem := { price := numStr ("10.5") (10.5) 10, quantity := .num 2 }

/-- Concrete fixture: the spec's second example item, `{dish_price: 20,
quantity: "3"}`. -/
def exItem2 : RawItem := { dish_price := .num 20, quantity := numStr ("3") 3 3 }

/-- Concrete fixture: an item priced only under the legacy `dishPrice`
alias. -/
def c2Item : RawItem := { dishPrice := .num 5, quantity := .num 1 }

/-- Concrete fixture: an item whose quantity field parses to the integer
`0`. -/
def c10Item : RawItem := { dish_price := .num 7, quantity := numStr ("0") 0 0 }

/-- Concrete fixture: a delivery address. -/
def exAddress : JsValue := mkStr ("ул. Ленина, д. 10, кв. 5")

/-- Concrete fixture: a connected, healthy environment. -/
def exEnv : ServerEnv :=
  { dbConnected := true, poolReady := true, dbFails := false, dbOrderId := 42
    dbOrderDate := "2026-02-03T10:00:00.000Z", nowMs := 1770000000000
    nowIso := "2026-02-03T10:00:00.000Z", botToken := some ("123:abc"), sendOk := true }

/-- Concrete fixture: the same environment with the durable store
unavailable from process start. -/
def exMockEnv : ServerEnv := { exEnv with dbConnected := false, poolReady := false }

/-- Concrete fixture: a well-formed order request from user 1 over the
given items. -/
def exReq (l : List RawItem) : OrderRequest :=
  { userId := some 1, restaurant_id := .num 1, items := some l
    delivery_address := exAddress }

/-- Concrete fixture: environment for the status endpoints with the store
unavailable. -/
def c8StatusEnv : StatusUpdateEnv :=
  { adminKey := "dev-admin-key", dbConnected := false, poolReady := false
    updateFails := false, rowFound := false, rowUserId := none
    chatLookupFails := false, chatId := none, sendOk := false }

/-- Concrete fixture: environment for the dish endpoints with the store
unavailable. -/
def c8DishEnv : DishEnv :=
  { adminKey := "dev-admin-key", dbConnected := false, poolReady := false
    queryFails := false, rowFound := false }

/-- Concrete fixture: a healthy environment for the status endpoints. -/
def exStatusEnv : StatusUpdateEnv :=
  { adminKey := "dev-admin-key", dbConnected := true, poolReady := true
    updateFails := false, rowFound := true, rowUserId := some 1
    chatLookupFails := false, chatId := some ("555"), sendOk := true }

/-- Concrete fixture: a dish update that only toggles availability. -/
def exDishUpdates : DishUpdates := { is_available := some (.num 1) }

theorem pricingLoop_fst (items : List RawItem) :
    (pricingLoop items).1 =
      (items.map fun it => resolvedPrice3 it * (resolvedQty it : ℚ)).sum := by
  have h : ∀ l : List RawItem, ∀ a : ℚ, ∀ s : List OrderItem,
      (l.foldl (fun acc it =>
          (acc.1 + resolvedPrice3 it * (resolvedQty it : ℚ), acc.2 ++ [normItem it]))
        (a, s)).1 =
        a + (l.map fun it => resolvedPrice3 it * (resolvedQty it : ℚ)).sum := by
    intro l
    induction l with
    | nil => intro a s; simp
    | cons x xs ih =>
        intro a s
        simp only [List.foldl_cons, List.map_cons, List.sum_cons]
        rw [ih]
        ring
  simpa using h items 0 []

theorem pricingLoop_snd (items : List RawItem) :
    (pricingLoop items).2 = items.map normItem := by
  have h : ∀ l : List RawItem, ∀ a : ℚ, ∀ s : List OrderItem,
      (l.foldl (fun acc it =>
          (acc.1 + resolvedPrice3 it * (resolvedQty it : ℚ), acc.2 ++ [normItem it]))
        (a, s)).2 = s ++ l.map normItem := by
    intro l
    induction l with
    | nil => intro a s; simp
    | cons x xs ih =>
        intro a s
        simp only [List.foldl_cons, List.map_cons]
        rw [ih]
        simp
  simpa using h items 0 []

theorem notificationRecompute_fst (items : List RawItem) :
    (notificationRecompute items).1 =
      (items.map fun it => resolvedPrice2 it * (resolvedQty it : ℚ)).sum := by
  have h : ∀ l : List RawItem, ∀ a : ℚ, ∀ c : Int,
      (l.foldl (fun acc it =>
          (acc.1 + resolvedPrice2 it * (resolvedQty it : ℚ), acc.2 + resolvedQty it))
        (a, c)).1 =
        a + (l.map fun it => resolvedPrice2 it * (resolvedQty it : ℚ)).sum := by
    intro l
    induction l with
    | nil => intro a c; simp
    | cons x xs ih =>
        intro a c
        simp only [List.foldl_cons, List.map_cons, List.sum_cons]
        rw [ih]
        ring
  simpa using h items 0 0

theorem createOrder_db (env : ServerEnv) (req : OrderRequest) (u : Nat)
    (l : List RawItem) (hu : req.userId = some u)
    (hr : truthy req.restaurant_id = true) (hi : req.items = some l)
    (hd : truthy req.delivery_address = true) (hc : env.dbConnected = true)
    (hp : env.poolReady = true) (hf : env.dbFails = false) :
    createOrder env req = dbResult env req l := by
  simp [createOrder, hu, hr, hi, hd, hc, hp, hf]

theorem createOrder_mock (env : ServerEnv) (req : OrderRequest) (u : Nat)
    (l : List RawItem) (hu : req.userId = some u)
    (hr : truthy req.restaurant_id = true) (hi : req.items = some l)
    (hd : truthy req.delivery_address = true)
    (hc : (env.dbConnected && env.poolReady) = false) :
    createOrder env req = mockResult env req l := by
  simp [createOrder, hu, hr, hi, hd, hc]

theorem createOrder_invalid (env : ServerEnv) (req : OrderRequest) (u : Nat)
    (hu : req.userId = some u)
    (h : truthy req.restaurant_id = false ∨ req.items = none ∨
      truthy req.delivery_address = false) :
    createOrder env req =
      { httpStatus := 400, success := false
        error := some ("Заполните обязательные поля: restaurant_id, items, delivery_address") } := by
  rcases h with h | h | h <;> simp [createOrder, hu, h]

theorem truthy_req_fields (l : List RawItem) :
    truthy (exReq l).restaurant_id = true ∧ truthy (exReq l).delivery_address = true := by
  constructor
  · show truthy (.num 1) = true
    norm_num [truthy]
  · show truthy exAddress = true
    decide

/-- C1: for every submitted list of raw line items accepted by order
creation in database mode, the total written to the order header equals the
sum over items of resolved unit price (aliases `dish_price`, then `price`,
then `dishPrice`, an unparseable value falling through to the next alias
and ultimately to `0`) times resolved quantity (`parseInt`, defaulting to
`1`). -/
theorem C1_total_is_sum_over_items (env : ServerEnv) (req : OrderRequest)
    (u : Nat) (l : List RawItem) (hu : req.userId = some u)
    (hr : truthy req.restaurant_id = true) (hi : req.items = some l)
    (hd : truthy req.delivery_address = true) (hc : env.dbConnected = true)
    (hp : env.poolReady = true) (hf : env.dbFails = false) :
    (createOrder env req).persistedTotal =
      some ((l.map fun it => resolvedPrice3 it * (resolvedQty it : ℚ)).sum) := by
  rw [createOrder_db env req u l hu hr hi hd hc hp hf]
  simp [dbResult, pricingLoop_fst]

/-- Witness for C1 at the spec's example: items `[{price: "10.5",
quantity: 2}, {dish_price: 20, quantity: "3"}]` total `81`. -/
theorem C1_witness :
    (createOrder exEnv (exReq [exItem1, exItem2])).persistedTotal = some 81 := by
  rw [C1_total_is_sum_over_items exEnv (exReq [exItem1, exItem2]) 1 [exItem1, exItem2]
    rfl (truthy_req_fields [exItem1, exItem2]).1 rfl
    (truthy_req_fields [exItem1, exItem2]).2 rfl rfl rfl]
  norm_num [exItem1, exItem2, resolvedPrice3, resolvedQty, parseFloatV, parseIntV,
    numOr, intOr, numStr, jsTruncQ]

/-- C2: the persist-path total and the notification-message total are NOT
the same function of the submitted items — an item priced only under the
legacy `dishPrice` alias is counted by the persistence loop (three-alias
resolution, `server.js` 1412–1415) but not by the notification recompute
(two-alias resolution, 1503–1508, and 46 inside the dispatcher): the order
header stores `5` while the Telegram message reports `0`. -/
theorem C2_message_total_diverges_from_persisted :
    (createOrder exEnv (exReq [c2Item])).persistedTotal = some 5 ∧
    (createOrder exEnv (exReq [c2Item])).messageTotal = some 0 ∧
    (createOrder exEnv (exReq [c2Item])).persistedTotal ≠
      (createOrder exEnv (exReq [c2Item])).messageTotal := by
  rw [createOrder_db exEnv (exReq [c2Item]) 1 [c2Item] rfl
    (truthy_req_fields [c2Item]).1 rfl (truthy_req_fields [c2Item]).2 rfl rfl rfl]
  refine ⟨?_, ?_, ?_⟩ <;>
    norm_num [dbResult, CreateResult.messageTotal, sendTelegramNotification,
      dbNotificationData, notificationRecompute, sendPrice, sendQty, exEnv,
      resolvedPrice2, resolvedPrice3, resolvedQty, parseFloatV, parseIntV,
      numOr, intOr, jsOr, truthy, c2Item, pricingLoop, jsTruncQ, mkStr]

/-- C3: when the availability flag is down (`StorageUnavailable`), a
validated `POST /orders` request is not answered with an error: the mock
fallback produces a success response. -/
theorem C3_storage_unavailable_is_not_an_error (env : ServerEnv)
    (req : OrderRequest) (u : Nat) (l : List RawItem) (hu : req.userId = some u)
    (hr : truthy req.restaurant_id = true) (hi : req.items = some l)
    (hd : truthy req.delivery_address = true) (hc : env.dbConnected = false) :
    (createOrder env req).httpStatus = 200 ∧
    (createOrder env req).success = true ∧
    (createOrder env req).error = none := by
  rw [createOrder_mock env req u l hu hr hi hd (by simp [hc])]
  refine ⟨rfl, rfl, rfl⟩

/-- Witness for C3: a concrete valid submission against the disconnected
environment succeeds. -/
theorem C3_witness :
    (createOrder exMockEnv (exReq [exItem1, exItem2])).httpStatus = 200 ∧
    (createOrder exMockEnv (exReq [exItem1, exItem2])).success = true ∧
    (createOrder exMockEnv (exReq [exItem1, exItem2])).error = none :=
  C3_storage_unavailable_is_not_an_error exMockEnv (exReq [exItem1, exItem2]) 1
    [exItem1, exItem2] rfl (truthy_req_fields [exItem1, exItem2]).1 rfl
    (truthy_req_fields [exItem1, exItem2]).2 rfl

/-- C4: with the durable store unavailable, a validated order submission
yields a success response whose order id is the decimal string of
`Date.now()`, whose status is `pending`, whose items are the submitted
items (normalised by the mock mapping), and the Telegram dispatcher is
still invoked. -/
theorem C4_mock_order_shape (env : ServerEnv) (req : OrderRequest) (u : Nat)
    (l : List RawItem) (hu : req.userId = some u)
    (hr : truthy req.restaurant_id = true) (hi : req.items = some l)
    (hd : truthy req.delivery_address = true) (hc : env.dbConnected = false) :
    (createOrder env req).success = true ∧
    (createOrder env req).order.map RespOrder.id = some (Nat.repr env.nowMs) ∧
    (createOrder env req).order.map RespOrder.status = some ("pending") ∧
    (createOrder env req).order.map RespOrder.items = some (l.map mockRespItem) ∧
    (createOrder env req).notified = true := by
  rw [createOrder_mock env req u l hu hr hi hd (by simp [hc])]
  refine ⟨rfl, rfl, rfl, rfl, rfl⟩

/-- Witness for C4 at a concrete disconnected environment and submission. -/
theorem C4_witness :
    (createOrder exMockEnv (exReq [exItem1, exItem2])).success = true ∧
    (createOrder exMockEnv (exReq [exItem1, exItem2])).order.map RespOrder.id =
      some (Nat.repr exMockEnv.nowMs) ∧
    (createOrder exMockEnv (exReq [exItem1, exItem2])).order.map RespOrder.status =
      some ("pending") ∧
    (createOrder exMockEnv (exReq [exItem1, exItem2])).order.map RespOrder.items =
      some ([exItem1, exItem2].map mockRespItem) ∧
    (createOrder exMockEnv (exReq [exItem1, exItem2])).notified = true :=
  C4_mock_order_shape exMockEnv (exReq [exItem1, exItem2]) 1 [exItem1, exItem2]
    rfl (truthy_req_fields [exItem1, exItem2]).1 rfl
    (truthy_req_fields [exItem1, exItem2]).2 rfl

/-- C5: with an accepted admin key, a status outside the fixed set is
rejected with 400 before any UPDATE runs, on both the bot and the admin
status endpoints. -/
theorem C5_invalid_status_rejected_before_write (envB envA : StatusUpdateEnv)
    (kB kA : Option String) (st : JsValue)
    (hkB : apiKeyRejected kB envB.adminKey = false)
    (hkA : validateAdminApiKey kA envA.adminKey = true)
    (hs : statusAllowed st = false) :
    (botUpdateStatus envB kB st).httpStatus = 400 ∧
    (botUpdateStatus envB kB st).writes = 0 ∧
    (adminUpdateStatus envA kA st).httpStatus = 400 ∧
    (adminUpdateStatus envA kA st).writes = 0 := by
  simp [botUpdateStatus, adminUpdateStatus, hkB, hkA, hs]

/-- Witness for C5: the unknown status `shipped` with the configured key. -/
theorem C5_witness :
    (botUpdateStatus exStatusEnv (some ("dev-admin-key")) (mkStr ("shipped"))).httpStatus = 400 ∧
    (botUpdateStatus exStatusEnv (some ("dev-admin-key")) (mkStr ("shipped"))).writes = 0 ∧
    (adminUpdateStatus exStatusEnv (some ("dev-admin-key")) (mkStr ("shipped"))).httpStatus = 400 ∧
    (adminUpdateStatus exStatusEnv (some ("dev-admin-key")) (mkStr ("shipped"))).writes = 0 :=
  C5_invalid_status_rejected_before_write exStatusEnv exStatusEnv
    (some ("dev-admin-key")) (some ("dev-admin-key")) (mkStr ("shipped"))
    (by decide) (by decide) (by decide)

/-- C6 counterexample: an empty items array is NOT rejected — `![]` is
`false` in JS, so the request passes validation, persists a header (one
INSERT) and dispatches a notification, contradicting the claim that an
empty `items` fails with 400 before any further step. -/
theorem C6_empty_items_not_rejected :
    (createOrder exEnv (exReq [])).httpStatus = 200 ∧
    (createOrder exEnv (exReq [])).success = true ∧
    (createOrder exEnv (exReq [])).dbWrites = 1 ∧
    (createOrder exEnv (exReq [])).notified = true := by
  rw [createOrder_db exEnv (exReq []) 1 [] rfl (truthy_req_fields []).1 rfl
    (truthy_req_fields []).2 rfl rfl rfl]
  refine ⟨rfl, rfl, rfl, rfl⟩

/-- C6 (amended): when `restaurant_id`, `items` or `delivery_address` is
missing (or otherwise falsy, e.g. an empty string — but not an empty
array), the request fails with 400 and nothing further runs: no write, no
computed total, no notification. -/
theorem C6_falsy_required_field_rejected (env : ServerEnv)
    (req : OrderRequest) (u : Nat) (hu : req.userId = some u)
    (h : truthy req.restaurant_id = false ∨ req.items = none ∨
      truthy req.delivery_address = false) :
    (createOrder env req).httpStatus = 400 ∧
    (createOrder env req).success = false ∧
    (createOrder env req).dbWrites = 0 ∧
    (createOrder env req).persistedTotal = none ∧
    (createOrder env req).notified = false := by
  rw [createOrder_invalid env req u hu h]
  refine ⟨rfl, rfl, rfl, rfl, rfl⟩

/-- Witness for the amended C6: a request with no delivery address. -/
theorem C6_witness :
    (createOrder exEnv
      { userId := some 1, restaurant_id := .num 1, items := some [exItem1]
        delivery_address := .undef }).httpStatus = 400 ∧
    (createOrder exEnv
      { userId := some 1, restaurant_id := .num 1, items := some [exItem1]
        delivery_address := .undef }).success = false ∧
    (createOrder exEnv
      { userId := some 1, restaurant_id := .num 1, items := some [exItem1]
        delivery_address := .undef }).dbWrites = 0 ∧
    (createOrder exEnv
      { userId := some 1, restaurant_id := .num 1, items := some [exItem1]
        delivery_address := .undef }).persistedTotal = none ∧
    (createOrder exEnv
      { userId := some 1, restaurant_id := .num 1, items := some [exItem1]
        delivery_address := .undef }).notified = false :=
  C6_falsy_required_field_rejected exEnv
    { userId := some 1, restaurant_id := .num 1, items := some [exItem1]
      delivery_address := .undef } 1 rfl (Or.inr (Or.inr rfl))

/-- C7: the HTTP-level result of `POST /orders` (status and JSON body) is
the same whether the Telegram send succeeds or fails: the dispatcher
swallows its own errors and the handler never reads its result into the
response. -/
theorem C7_response_independent_of_notification_outcome (env : ServerEnv)
    (req : OrderRequest) (b1 b2 : Bool) :
    (createOrder { env with sendOk := b1 } req).httpView =
      (createOrder { env with sendOk := b2 } req).httpView := by
  cases hu : req.userId with
  | none => simp only [createOrder, hu]
  | some u =>
      simp only [createOrder, hu]
      split_ifs <;> rfl

/-- C8 counterexample: with the configured admin key, a valid status and
the store unavailable (no pool), `PUT /admin/orders/:id/status` answers
500, not 503 — it has no availability check, `pool.query` throws and the
catch-all replies 500. -/
theorem C8_admin_status_returns_500_not_503 :
    (adminUpdateStatus c8StatusEnv (some ("dev-admin-key")) (mkStr ("pending"))).httpStatus = 500 ∧
    (adminUpdateStatus c8StatusEnv (some ("dev-admin-key")) (mkStr ("pending"))).httpStatus ≠ 503 := by
  refine ⟨?_, ?_⟩ <;> decide

/-- C8 (amended): with a valid admin key and the store unavailable,
`PUT /admin/dishes/:id` (non-empty body) and `POST /admin/dishes`
(required fields present) answer 503, while `PUT /admin/orders/:id/status`
answers 500 from its catch-all. -/
theorem C8_admin_mutations_when_store_down (envD : DishEnv)
    (envS : StatusUpdateEnv) (kD kS : Option String) (u : DishUpdates)
    (rid nm pr st : JsValue)
    (hkD : validateAdminApiKey kD envD.adminKey = true)
    (hkS : validateAdminApiKey kS envS.adminKey = true)
    (hu : u.keyCount ≠ 0)
    (hrid : truthy rid = true) (hnm : truthy nm = true) (hpr : truthy pr = true)
    (hst : statusAllowed st = true)
    (hdbD : envD.dbConnected = false ∨ envD.poolReady = false)
    (hpS : envS.poolReady = false) :
    (adminUpdateDish envD kD (some u)).httpStatus = 503 ∧
    (adminCreateDish envD kD rid nm pr).httpStatus = 503 ∧
    (adminUpdateStatus envS kS st).httpStatus = 500 := by
  refine ⟨?_, ?_, ?_⟩
  · rcases hdbD with h | h <;> simp [adminUpdateDish, hkD, hu, h]
  · rcases hdbD with h | h <;> simp [adminCreateDish, hkD, hrid, hnm, hpr, h]
  · simp [adminUpdateStatus, hkS, hst, hpS]

/-- Witness for the amended C8 at concrete unavailable environments. -/
theorem C8_witness :
    (adminUpdateDish c8DishEnv (some ("dev-admin-key")) (some exDishUpdates)).httpStatus = 503 ∧
    (adminCreateDish c8DishEnv (some ("dev-admin-key")) (.num 1) (mkStr ("Пицца"))
      (numStr ("699.00") 699 699)).httpStatus = 503 ∧
    (adminUpdateStatus c8StatusEnv (some ("dev-admin-key")) (mkStr ("delivered"))).httpStatus = 500 :=
  C8_admin_mutations_when_store_down c8DishEnv c8StatusEnv
    (some ("dev-admin-key")) (some ("dev-admin-key")) exDishUpdates
    (.num 1) (mkStr ("Пицца")) (numStr ("699.00") 699 699) (mkStr ("delivered"))
    (by decide) (by decide) (by decide)
    (by norm_num [truthy]) (by decide) (by decide) (by decide)
    (Or.inl rfl) rfl

/-- C9: when the bearer credential resolves to no identity,
`GET /users/me/orders` answers 401 with the authorization error and issues
no SQL query at all. -/
theorem C9_unauthorized_no_storage_access (authHeader : Option String)
    (verify : String → Option Nat) (dbc pool qf : Bool) (rows : Nat)
    (h : getUserIdFromToken authHeader verify = none) :
    (getUserOrders (getUserIdFromToken authHeader verify) dbc pool qf rows).httpStatus = 401 ∧
    (getUserOrders (getUserIdFromToken authHeader verify) dbc pool qf rows).error =
      some ("Требуется авторизация") ∧
    (getUserOrders (getUserIdFromToken authHeader verify) dbc pool qf rows).dbQueries = 0 := by
  rw [h]
  exact ⟨rfl, rfl, rfl⟩

/-- Witness for C9: a request with no Authorization header at all. -/
theorem C9_witness :
    (getUserOrders (getUserIdFromToken none fun _ => none) true true false 3).httpStatus = 401 ∧
    (getUserOrders (getUserIdFromToken none fun _ => none) true true false 3).error =
      some ("Требуется авторизация") ∧
    (getUserOrders (getUserIdFromToken none fun _ => none) true true false 3).dbQueries = 0 :=
  C9_unauthorized_no_storage_access none (fun _ => none) true true false 3 rfl

/-- C10: a quantity field that parses to the integer 0 resolves to 1 —
`parseInt(x) || 1` treats the parsed 0 as falsy — at the persistence site
and inside the notification dispatcher, so a zero-quantity line contributes
one unit price to the total, not zero. -/
theorem C10_parsed_zero_quantity_becomes_one (it : RawItem) (nit : NotifItem)
    (h1 : parseIntV it.quantity = some 0) (h2 : parseIntV nit.quantity = some 0) :
    resolvedQty it = 1 ∧ sendQty nit = 1 ∧
    (pricingLoop [it]).1 = resolvedPrice3 it ∧
    (notificationRecompute [it]).1 = resolvedPrice2 it := by
  have hq : resolvedQty it = 1 := by simp [resolvedQty, intOr, h1]
  refine ⟨hq, by simp [sendQty, intOr, h2], ?_, ?_⟩
  · simp [pricingLoop, hq]
  · simp [notificationRecompute, hq]

/-- Witness for C10: an item with price 7 and quantity string `"0"`. -/
theorem C10_witness :
    resolvedQty c10Item = 1 ∧
    sendQty { dishName := mkStr ("Стейк"), quantity := numStr ("0") 0 0 } = 1 ∧
    (pricingLoop [c10Item]).1 = resolvedPrice3 c10Item ∧
    (notificationRecompute [c10Item]).1 = resolvedPrice2 c10Item :=
  C10_parsed_zero_quantity_becomes_one c10Item
    { dishName := mkStr ("Стейк"), quantity := numStr ("0") 0 0 } rfl rfl

end FoodApi

